import Mathlib

/-!
Shallow embedding of the transaction-building, fee-estimation, subscription
and RPC-logging core of the web3client repository
(src/web3client/base_client.py, src/web3client/helpers/subscribe.py,
src/web3client/helpers/tx.py, src/web3client/middlewares/rpc_log_middleware.py).

Conventions of the embedding:
 - Python numbers (wei amounts, gas values) are modelled as Int; gwei amounts,
   which the source holds as Python floats obtained by exact decimal
   conversion (Web3.from_wei / Web3.to_wei), are modelled as Rat.
 - Fallible code returns Except; Python `raise` is Except.error.
 - JSON values (websocket frames, RPC responses) are a small inductive Json.
 - Calls that hit the node (eth_gasPrice, eth_getBlockByNumber,
   eth_getTransactionCount, eth_estimateGas, eth_chainId) are answered from an
   explicit ChainState record, so every function is pure and executable.
 - Web3.to_checksum_address is modelled as the identity on address strings:
   no claim below depends on checksum casing.
-/

namespace Web3client

/-- A small JSON value type, used for websocket notification frames and RPC
responses (the source manipulates the output of json.loads). -/
inductive Json where
  | null : Json
  | bool (b : Bool) : Json
  | num (n : Int) : Json
  | str (s : String) : Json
  | arr (xs : List Json) : Json
  | obj (fields : List (String × Json)) : Json
deriving Repr

mutual

/-- Decidable equality on Json (hand-rolled: the derive handler does not
support the nesting through lists). -/
def Json.decEq : (a b : Json) → Decidable (a = b)
  | .null, .null => isTrue rfl
  | .bool x, .bool y =>
      if h : x = y then isTrue (by rw [h])
      else isFalse (by intro he; injection he; contradiction)
  | .num x, .num y =>
      if h : x = y then isTrue (by rw [h])
      else isFalse (by intro he; injection he; contradiction)
  | .str x, .str y =>
      if h : x = y then isTrue (by rw [h])
      else isFalse (by intro he; injection he; contradiction)
  | .arr xs, .arr ys =>
      match Json.decEqList xs ys with
      | isTrue h => isTrue (by rw [h])
      | isFalse h => isFalse (by intro he; injection he; contradiction)
  | .obj xs, .obj ys =>
      match Json.decEqFields xs ys with
      | isTrue h => isTrue (by rw [h])
      | isFalse h => isFalse (by intro he; injection he; contradiction)
  | .null, .bool _ => isFalse (fun h => nomatch h)
  | .null, .num _ => isFalse (fun h => nomatch h)
  | .null, .str _ => isFalse (fun h => nomatch h)
  | .null, .arr _ => isFalse (fun h => nomatch h)
  | .null, .obj _ => isFalse (fun h => nomatch h)
  | .bool _, .null => isFalse (fun h => nomatch h)
  | .bool _, .num _ => isFalse (fun h => nomatch h)
  | .bool _, .str _ => isFalse (fun h => nomatch h)
  | .bool _, .arr _ => isFalse (fun h => nomatch h)
  | .bool _, .obj _ => isFalse (fun h => nomatch h)
  | .num _, .null => isFalse (fun h => nomatch h)
  | .num _, .bool _ => isFalse (fun h => nomatch h)
  | .num _, .str _ => isFalse (fun h => nomatch h)
  | .num _, .arr _ => isFalse (fun h => nomatch h)
  | .num _, .obj _ => isFalse (fun h => nomatch h)
  | .str _, .null => isFalse (fun h => nomatch h)
  | .str _, .bool _ => isFalse (fun h => nomatch h)
  | .str _, .num _ => isFalse (fun h => nomatch h)
  | .str _, .arr _ => isFalse (fun h => nomatch h)
  | .str _, .obj _ => isFalse (fun h => nomatch h)
  | .arr _, .null => isFalse (fun h => nomatch h)
  | .arr _, .bool _ => isFalse (fun h => nomatch h)
  | .arr _, .num _ => isFalse (fun h => nomatch h)
  | .arr _, .str _ => isFalse (fun h => nomatch h)
  | .arr _, .obj _ => isFalse (fun h => nomatch h)
  | .obj _, .null => isFalse (fun h => nomatch h)
  | .obj _, .bool _ => isFalse (fun h => nomatch h)
  | .obj _, .num _ => isFalse (fun h => nomatch h)
  | .obj _, .str _ => isFalse (fun h => nomatch h)
  | .obj _, .arr _ => isFalse (fun h => nomatch h)

/-- Decidable equality on lists of Json. -/
def Json.decEqList : (a b : List Json) → Decidable (a = b)
  | [], [] => isTrue rfl
  | x :: xs, y :: ys =>
      match Json.decEq x y, Json.decEqList xs ys with
      | isTrue h1, isTrue h2 => isTrue (by rw [h1, h2])
      | isFalse h1, _ => isFalse (by intro he; injection he; contradiction)
      | _, isFalse h2 => isFalse (by intro he; injection he; contradiction)
  | [], _ :: _ => isFalse (fun h => nomatch h)
  | _ :: _, [] => isFalse (fun h => nomatch h)

/-- Decidable equality on Json object field lists. -/
def Json.decEqFields : (a b : List (String × Json)) → Decidable (a = b)
  | [], [] => isTrue rfl
  | (k1, v1) :: xs, (k2, v2) :: ys =>
      if h1 : k1 = k2 then
        match Json.decEq v1 v2, Json.decEqFields xs ys with
        | isTrue h2, isTrue h3 => isTrue (by rw [h1, h2, h3])
        | isFalse h2, _ =>
            isFalse (by intro he; injection he with he1 he2;
                        injection he1; contradiction)
        | _, isFalse h3 =>
            isFalse (by intro he; injection he with he1 he2; contradiction)
      else
        isFalse (by intro he; injection he with he1 he2;
                    injection he1; contradiction)
  | [], _ :: _ => isFalse (fun h => nomatch h)
  | _ :: _, [] => isFalse (fun h => nomatch h)

end

instance : DecidableEq Json := Json.decEq

/-- Python dict access d[k] on a JSON object: the value at the first matching
key, if any (None means a KeyError would be raised). -/
def Json.lookup : Json → String → Option Json
  | .obj fields, k => (fields.find? (fun p => p.1 = k)).map (·.2)
  | _, _ => none

/-- Exceptions of web3client/exceptions.py plus the Python KeyError that
base_client can hit when a block lacks a field.  The source raises the base
class Web3ClientException for an unsupported transaction type with the message
built in build_base_tx; the spec names that condition UnsupportedTransactionType,
so it gets its own constructor here. -/
inductive Web3Exc where
  | web3ClientException (msg : String) : Web3Exc
  | transactionTooExpensive (msg : String) : Web3Exc
  | unsupportedTransactionType (msg : String) : Web3Exc
  | keyError (key : String) : Web3Exc
deriving DecidableEq, Repr

/-- The value of BaseClient.upper_limit_for_base_fee_in_gwei: Python None,
float("inf") (the class default), or a finite float. -/
inductive GweiLimit where
  | none : GweiLimit
  | inf : GweiLimit
  | val (q : Rat) : GweiLimit
deriving DecidableEq, Repr

/-- Python `a or b` for an optional integer argument: 0 and None are falsy
and fall through to the second operand (base_client.__init__ and
build_base_tx use this pattern). -/
def pyOrInt (a : Option Int) (b : Option Int) : Option Int :=
  match a with
  | some v => if v = 0 then b else some v
  | none => b

/-- Python `a or b` for an optional rational (float) argument: 0 and None are
falsy and fall through to the second operand. -/
def pyOrRat (a : Option Rat) (b : Rat) : Rat :=
  match a with
  | some v => if v = 0 then b else v
  | none => b

/-- The configurable state of a BaseClient that the claims depend on
(base_client.py class attributes resolved by __init__). -/
structure BaseClient where
  chain_id : Option Int
  tx_type : Option Int
  max_priority_fee_in_gwei : Rat
  upper_limit_for_base_fee_in_gwei : GweiLimit
  user_address : String
deriving Repr

/-- The constructor arguments of BaseClient.__init__ that the claims depend
on (None models an omitted argument). -/
structure InitArgs where
  chain_id : Option Int := Option.none
  tx_type : Option Int := Option.none
  max_priority_fee_in_gwei : Option Rat := Option.none
  upper_limit_for_base_fee_in_gwei : Option Rat := Option.none
deriving Repr

/-- BaseClient.__init__ attribute resolution (base_client.py lines 222-230):
each attribute is `arg or self.__class__.default`, so Python-falsy arguments
(0 and None) silently fall back to the class-level defaults
chain_id=None, tx_type=2, max_priority_fee_in_gwei=0.01,
upper_limit_for_base_fee_in_gwei=float("inf"). -/
def BaseClient.init (args : InitArgs) (user_address : String := "") : BaseClient :=
  { chain_id := pyOrInt args.chain_id Option.none
    tx_type := pyOrInt args.tx_type (some 2)
    max_priority_fee_in_gwei := pyOrRat args.max_priority_fee_in_gwei (1 / 100)
    upper_limit_for_base_fee_in_gwei :=
      match args.upper_limit_for_base_fee_in_gwei with
      | some u => if u = 0 then GweiLimit.inf else GweiLimit.val u
      | Option.none => GweiLimit.inf
    user_address := user_address }

/-- The chain data the node would answer with during one build call.
estimateGasForTransfer answers eth_estimateGas for a plain-value transfer
as a function of recipient and value. -/
structure ChainState where
  chainId : Int
  gasPriceWei : Int
  baseFeePerGas : Option Int
  txCount : Nat
  estimateGasForTransfer : String → Int → Int

/-- Web3.from_wei(x, "gwei"): exact division by 10^9. -/
def fromWeiToGwei (wei : Int) : Rat := (wei : Rat) / 1000000000

/-- Web3.to_wei(g, "gwei"): exact scaling by 10^9 (the source converts a
decimal quantity; all quantities built by the client scale exactly). -/
def toWeiFromGwei (g : Rat) : Int := ⌊g * 1000000000⌋

/-- BaseClient.supports_eip1559 (base_client.py lines 982-985): the latest
block exposes a non-None baseFeePerGas field. -/
def BaseClient.supports_eip1559 (s : ChainState) : Bool :=
  s.baseFeePerGas.isSome

/-- BaseClient.infer_tx_type (base_client.py lines 987-992): type 2 outright
when chain_id == 1, otherwise 2 if the node supports EIP-1559, else 0. -/
def BaseClient.infer_tx_type (c : BaseClient) (s : ChainState) : Int :=
  if c.chain_id = some 1 then 2
  else if BaseClient.supports_eip1559 s then 2 else 0

/-- Python `if not tx_type` on `tx_type = self.tx_type` in build_base_tx
(line 326): None and 0 are falsy. -/
def txTypeFalsy : Option Int → Bool
  | Option.none => true
  | some t => t = 0

/-- The transaction type that build_base_tx dispatches on (lines 325-328):
the client's tx_type unless falsy, in which case it is re-derived from the
current chain state by infer_tx_type. -/
def BaseClient.resolveTxType (c : BaseClient) (s : ChainState) : Int :=
  if txTypeFalsy c.tx_type then BaseClient.infer_tx_type c s
  else c.tx_type.getD 0

/-- BaseClient.estimate_max_fee_in_gwei (base_client.py lines 815-833):
fetch the latest block's baseFeePerGas (a missing field is a Python
KeyError), convert to gwei, and return
(2 * baseFee + maxPriorityFeePerGas, baseFee), both in gwei. -/
def BaseClient.estimate_max_fee_in_gwei (s : ChainState)
    (max_priority_fee_in_gwei : Rat) : Except Web3Exc (Rat × Rat) :=
  match s.baseFeePerGas with
  | Option.none => .error (.keyError "baseFeePerGas")
  | some base_fee_in_wei =>
      let base_fee_in_gwei := fromWeiToGwei base_fee_in_wei
      .ok (2 * base_fee_in_gwei + max_priority_fee_in_gwei, base_fee_in_gwei)

/-- BaseClient.raise_if_gas_fee_too_high (base_client.py lines 845-858):
raise TransactionTooExpensive when an upper limit is configured (not None)
and the given fee exceeds it; the message carries both values. -/
def BaseClient.raise_if_gas_fee_too_high (c : BaseClient)
    (gas_fee_in_gwei : Rat) : Except Web3Exc Unit :=
  match c.upper_limit_for_base_fee_in_gwei with
  | GweiLimit.none => .ok ()
  | GweiLimit.inf => .ok ()
  | GweiLimit.val limit =>
      if gas_fee_in_gwei > limit then
        .error (.transactionTooExpensive
          ("Gas too expensive [fee=" ++ toString gas_fee_in_gwei
            ++ " gwei, max=" ++ toString limit ++ " gwei]"))
      else .ok ()

/-- The transaction dictionary assembled by the build methods (web3 TxParams).
The source stores `type` as a hex string via Web3.to_hex; it is kept as the
underlying integer here. -/
structure TxParams where
  chainId : Int
  from_ : String
  type : Option Int := Option.none
  maxPriorityFeePerGas : Option Int := Option.none
  maxFeePerGas : Option Int := Option.none
  gasPrice : Option Int := Option.none
  nonce : Nat := 0
  gas : Option Int := Option.none
  to_ : Option String := Option.none
  value : Option Int := Option.none
deriving DecidableEq, Repr

/-- The tx-type dispatch block of build_base_tx (base_client.py lines
330-363): fill the fee fields of the transaction according to the resolved
type and return it with the effective fee (in gwei) that is then handed to
raise_if_gas_fee_too_high, or raise for an unsupported type tag. -/
def BaseClient.feeDispatch (c : BaseClient) (s : ChainState) (tx0 : TxParams)
    (max_priority_fee_in_gwei : Option Rat) :
    Except Web3Exc (TxParams × Rat) :=
  if BaseClient.resolveTxType c s = 0 ∨ BaseClient.resolveTxType c s = 1 then
    -- legacy path: gasPrice from the node (eth_gasPrice strategy)
    .ok ({ tx0 with gasPrice := some s.gasPriceWei },
         fromWeiToGwei s.gasPriceWei)
  else if BaseClient.resolveTxType c s = 2 then
    match BaseClient.estimate_max_fee_in_gwei s
            (pyOrRat max_priority_fee_in_gwei c.max_priority_fee_in_gwei) with
    | .error e => .error e
    | .ok (maxFeePerGasInGwei, base_fee_in_gwei) =>
        .ok ({ tx0 with
                 type := some 2
                 maxPriorityFeePerGas := some (toWeiFromGwei
                   (pyOrRat max_priority_fee_in_gwei c.max_priority_fee_in_gwei))
                 maxFeePerGas := some (toWeiFromGwei maxFeePerGasInGwei) },
             base_fee_in_gwei)
  else
    .error (.unsupportedTransactionType
      ("Transaction with tx_type=" ++ toString (BaseClient.resolveTxType c s)
        ++ " not supported, use either 0, 1 or 2"))

/-- The transaction dictionary started at lines 319-322 of build_base_tx:
chain id (`self.chain_id or self.w3.eth.chain_id`) and sender. -/
def BaseClient.baseTx0 (c : BaseClient) (s : ChainState) : TxParams :=
  { chainId := (pyOrInt c.chain_id (some s.chainId)).getD s.chainId
    from_ := c.user_address }

/-- BaseClient.build_base_tx (base_client.py lines 299-377): start from the
chain-id/sender dictionary, run the tx-type dispatch (fee fields or
UnsupportedTransactionType), enforce the fee ceiling, then fill nonce
(on-chain count when None) and the caller's gas limit when given. -/
def BaseClient.build_base_tx (c : BaseClient) (s : ChainState)
    (nonce : Option Nat := Option.none) (gas_limit : Option Int := Option.none)
    (max_priority_fee_in_gwei : Option Rat := Option.none) :
    Except Web3Exc TxParams :=
  match BaseClient.feeDispatch c s (BaseClient.baseTx0 c s)
          max_priority_fee_in_gwei with
  | .error e => .error e
  | .ok (tx1, gas_fee_in_gwei) =>
      match BaseClient.raise_if_gas_fee_too_high c gas_fee_in_gwei with
      | .error e => .error e
      | .ok () =>
          match gas_limit with
          | some g => .ok { tx1 with nonce := nonce.getD s.txCount, gas := some g }
          | Option.none => .ok { tx1 with nonce := nonce.getD s.txCount }

/-- BaseClient.build_tx_with_value_in_wei (base_client.py lines 396-418):
build the base transaction, then merge in `to`, `value` and a gas field
freshly estimated with eth_estimateGas; the Python dict merge
`tx | extra_params` lets every extra field, gas included, win over the base
transaction. -/
def BaseClient.build_tx_with_value_in_wei (c : BaseClient) (s : ChainState)
    (to_ : String) (value_in_wei : Int)
    (nonce : Option Nat := Option.none) (gas_limit : Option Int := Option.none)
    (max_priority_fee_in_gwei : Option Rat := Option.none) :
    Except Web3Exc TxParams :=
  match BaseClient.build_base_tx c s nonce gas_limit max_priority_fee_in_gwei with
  | .error e => .error e
  | .ok tx =>
      .ok { tx with
              to_ := some to_
              value := some value_in_wei
              gas := some (s.estimateGasForTransfer to_ value_in_wei) }

/-!  The subscription pipeline (base_client.py subscribe / async_subscribe and
helpers/subscribe.py).  Frames are modelled as already json-decoded Json
values; the string-level json.loads step (whose failure the source converts
to a Web3ClientException) is outside the model. -/

/-- parse_notification (helpers/subscribe.py lines 49-75): extract the
subscription id and the payload from a notification frame; a missing field
raises Web3ClientException.  The source messages quote the field name; the
quotes are dropped here. -/
def parse_notification (frame : Json) : Except Web3Exc (Json × Json) :=
  match (frame.lookup "params").bind (fun p => p.lookup "subscription") with
  | Option.none =>
      .error (.web3ClientException
        "Cannot extract subscription field from websocket notification")
  | some subscription_id =>
      match (frame.lookup "params").bind (fun p => p.lookup "result") with
      | Option.none =>
          .error (.web3ClientException
            "Cannot extract result field from websocket notification")
      | some data => .ok (subscription_id, data)

/-- The transaction fields BaseClient.filter_tx inspects (the value is in
wei; tx["to"] can be null for contract creation). -/
structure TxDataLite where
  from_ : String
  to_ : Option String
  value : Int
deriving DecidableEq, Repr

/-- BaseClient.filter_tx (base_client.py lines 1067-1094): sender allow-list,
recipient allow-list and inclusive value range, each check skipped when its
filter is unset (empty list / None).  Web3.to_checksum_address is modelled as
the identity. -/
def filter_tx (tx : TxDataLite) (from_ : List String) (to_ : List String)
    (value : Option (Rat × Rat)) : Bool :=
  let toNotInList : Bool :=
    match tx.to_ with
    | some a => decide (a ∉ to_)
    | Option.none => true
  if from_ ≠ [] ∧ tx.from_ ∉ from_ then false
  else if to_ ≠ [] ∧ toNotInList = true then false
  else match value with
    | some (lo, hi) =>
        let value_in_eth : Rat := (tx.value : Rat) / 1000000000000000000
        if value_in_eth < lo ∨ value_in_eth > hi then false else true
    | Option.none => true

/-- Python exception classes as the subscriber sees them: `exc` is an
Exception-class error (caught by the `except Exception` in
process_notification, e.g. TransactionNotFound or a dict KeyError), while
Web3ClientException derives from BaseException directly and is NOT caught
there. -/
inductive PyErr where
  | exc (msg : String) : PyErr
  | base (e : Web3Exc) : PyErr
deriving DecidableEq, Repr

/-- BaseClient.get_tx_from_notification (base_client.py lines 544-561):
extract the transaction hash from the payload (the payload itself for
newPendingTransactions, the transactionHash field for logs, a
Web3ClientException otherwise) and poll the node for the transaction.
poll_tx is the node oracle; its failures (e.g. TransactionNotFound after the
poll timeout) are Exception-class. -/
def BaseClient.get_tx_from_notification (subscription_type : String)
    (poll_tx : Json → Except String TxDataLite) (data : Json) :
    Except PyErr TxDataLite :=
  if subscription_type = "newPendingTransactions" then
    match poll_tx data with
    | .ok tx => .ok tx
    | .error m => .error (.exc m)
  else if subscription_type = "logs" then
    match data.lookup "transactionHash" with
    | some h =>
        match poll_tx h with
        | .ok tx => .ok tx
        | .error m => .error (.exc m)
    | Option.none => .error (.exc "KeyError: transactionHash")
  else
    .error (.base (.web3ClientException
      ("Cannot extract transaction from notifications of type "
        ++ subscription_type)))

/-- The filter-related arguments of BaseClient.subscribe; the two booleans
record whether the optional tx_on_fetch / tx_on_fetch_error callbacks were
supplied. -/
structure SubscribeArgs where
  subscription_type : String := "newPendingTransactions"
  tx_from : List String := []
  tx_to : List String := []
  tx_value : Option (Rat × Rat) := Option.none
  tx_on_fetch : Bool := false
  tx_on_fetch_error : Bool := false
deriving Repr

/-- One observable callback invocation made by the subscriber. -/
inductive SubEvent where
  | mainCallback (data : Json) (tx : Option TxDataLite) : SubEvent
  | fetchCallback (tx : TxDataLite) (data : Json) : SubEvent
  | fetchErrorCallback (msg : String) (data : Json) : SubEvent
deriving DecidableEq, Repr

/-- The process_notification closure of BaseClient.subscribe (base_client.py
lines 673-700): parse the frame, silently drop it when its subscription id
differs from the current session id, invoke the main callback directly when
no transaction filter is set, and otherwise fetch the transaction (routing
Exception-class fetch failures to the optional tx_on_fetch_error callback and
dropping the notification) and gate the main callback on filter_tx.  The
returned list is the sequence of callback invocations. -/
def process_notification (args : SubscribeArgs)
    (poll_tx : Json → Except String TxDataLite)
    (notification : Json) (subscription_id : Json) :
    Except Web3Exc (List SubEvent) :=
  match parse_notification notification with
  | .error e => .error e
  | .ok (id, data) =>
      if id ≠ subscription_id then .ok []
      else if args.tx_from = [] ∧ args.tx_to = [] ∧ args.tx_value = Option.none then
        .ok [SubEvent.mainCallback data Option.none]
      else
        match BaseClient.get_tx_from_notification args.subscription_type
                poll_tx data with
        | .error (.base e) => .error e
        | .error (.exc m) =>
            .ok (if args.tx_on_fetch_error
                 then [SubEvent.fetchErrorCallback m data] else [])
        | .ok tx =>
            let fetchEvs :=
              if args.tx_on_fetch then [SubEvent.fetchCallback tx data] else []
            if filter_tx tx args.tx_from args.tx_to args.tx_value then
              .ok (fetchEvs ++ [SubEvent.mainCallback data (some tx)])
            else
              .ok fetchEvs

/-- The receive loop of BaseClient.subscribe (base_client.py lines 710-718)
over one connection, run on a finite prefix of the inbound frame stream:
process each frame in order and, when once is set, return right after
processing the FIRST frame (whatever process_notification did with it).
The result pairs the callback invocations with a flag telling whether the
loop returned (true) or is still listening for further frames (false). -/
def subscribeMainLoop (once : Bool)
    (proc : Json → Except Web3Exc (List SubEvent)) :
    List Json → Except Web3Exc (List SubEvent × Bool)
  | [] => .ok ([], false)
  | f :: rest =>
      match proc f with
      | .error e => .error e
      | .ok evs =>
          if once then .ok (evs, true)
          else
            match subscribeMainLoop once proc rest with
            | .error e => .error e
            | .ok (evs2, t) => .ok (evs ++ evs2, t)

/-!  The RPC log middleware (middlewares/rpc_log_middleware.py and
helpers/tx.py).  The parse_raw_tx RLP decode and the eth_getTransaction /
eth_getTransactionReceipt node calls are external effects, modelled as
oracle functions whose failures are Except errors; decoded transaction views
and RPC responses are Json values. -/

/-- TX_WRITE_METHODS (rpc_log_middleware.py line 17). -/
def TX_WRITE_METHODS : List String :=
  ["eth_sendRawTransaction", "eth_sendTransaction"]

/-- The configuration of BaseRpcLog.__init__ (rpc_log_middleware.py
lines 127-151). -/
structure RpcLogCfg where
  rpc_whitelist : Option (List String) := Option.none
  fetch_tx_data : Bool := false
  fetch_tx_receipt : Bool := false
  parse_raw_tx_data : Bool := true
deriving Repr

/-- BaseRpcLog.should_log_request (lines 157-163): log everything when no
whitelist is configured, otherwise only whitelisted methods. -/
def RpcLogCfg.should_log_request (cfg : RpcLogCfg) (method : String) : Bool :=
  match cfg.rpc_whitelist with
  | Option.none => true
  | some wl => method ∈ wl

/-- BaseRpcLog.should_log_response (lines 203-209): same rule as for
requests. -/
def RpcLogCfg.should_log_response (cfg : RpcLogCfg) (method : String) : Bool :=
  match cfg.rpc_whitelist with
  | Option.none => true
  | some wl => method ∈ wl

/-- The fields of a RequestEntry that the claims depend on (the correlation
id, timestamp and w3 handle are dropped). -/
structure RequestEntry where
  method : String
  params : List Json
  parsed_tx_data : Option Json
deriving DecidableEq, Repr

/-- The fields of a ResponseEntry that the claims depend on. -/
structure ResponseEntry where
  method : String
  params : List Json
  response : Json
  tx_data : Option Json
  tx_receipt : Option Json
deriving DecidableEq, Repr

/-- BaseRpcLog.handle_request (rpc_log_middleware.py lines 165-191): when
raw-tx parsing is enabled and the method is eth_sendRawTransaction, decode
params[0]; ANY Exception in that block (missing params, non-string payload,
decode failure) is caught and reduced to a class-logger warning, leaving
parsed_tx_data unset.  Returns the entry passed to log_request together with
the warnings emitted.  The function is total: no exception escapes it. -/
def BaseRpcLog.handle_request (cfg : RpcLogCfg)
    (parse_raw_tx : String → Except String Json)
    (method : String) (params : List Json) : RequestEntry × List String :=
  let warn := "Could not parse raw tx in request to " ++ method
  let decoded : Option Json × List String :=
    if cfg.parse_raw_tx_data then
      if method = "eth_sendRawTransaction" then
        match params with
        | Json.str raw :: _ =>
            match parse_raw_tx raw with
            | .ok d => (some d, [])
            | .error _ => (Option.none, [warn])
        | _ :: _ => (Option.none, [warn])
        | [] => (Option.none, [warn])
      else (Option.none, [])
    else (Option.none, [])
  ({ method := method, params := params, parsed_tx_data := decoded.1 },
   decoded.2)

/-- is_rpc_response_ok (helpers/tx.py lines 105-111): no error key, a result
key, and a non-null result. -/
def is_rpc_response_ok (response : Json) : Bool :=
  (response.lookup "error").isNone &&
    match response.lookup "result" with
    | some v => decide (v ≠ Json.null)
    | Option.none => false

/-- BaseRpcLog.handle_response (rpc_log_middleware.py lines 211-245): for a
successful response to a transaction-write method, optionally fetch the
transaction data and/or receipt before building the entry passed to
log_response.  Unlike handle_request there is NO try/except around these
fetches: a failing get_transaction or wait_for_transaction_receipt oracle
propagates out of the function. -/
def BaseRpcLog.handle_response (cfg : RpcLogCfg)
    (get_transaction : Json → Except String Json)
    (wait_for_transaction_receipt : Json → Except String Json)
    (method : String) (params : List Json) (response : Json) :
    Except String ResponseEntry :=
  let ok := is_rpc_response_ok response
  let result := (response.lookup "result").getD Json.null
  let txDataStep : Except String (Option Json) :=
    if ok ∧ cfg.fetch_tx_data ∧ method ∈ TX_WRITE_METHODS then
      match get_transaction result with
      | .ok d => .ok (some d)
      | .error e => .error e
    else .ok Option.none
  match txDataStep with
  | .error e => .error e
  | .ok tx_data =>
      let txReceiptStep : Except String (Option Json) :=
        if ok ∧ cfg.fetch_tx_receipt ∧ method ∈ TX_WRITE_METHODS then
          match wait_for_transaction_receipt result with
          | .ok r => .ok (some r)
          | .error e => .error e
        else .ok Option.none
      match txReceiptStep with
      | .error e => .error e
      | .ok tx_receipt =>
          .ok { method := method, params := params, response := response,
                tx_data := tx_data, tx_receipt := tx_receipt }

/-- One observable action of the logging middleware. -/
inductive LogEvent where
  | warning (msg : String) : LogEvent
  | request (e : RequestEntry) : LogEvent
  | response (e : ResponseEntry) : LogEvent
deriving DecidableEq, Repr

/-- The middleware of construct_generic_rpc_log_middleware
(rpc_log_middleware.py lines 395-418): log the request if allow-listed, then
perform the real call (make_request, modelled as total: transport failures
are outside the middleware claims), then log the response if allow-listed.
The result is the wrapped response together with the log events, or the
exception that escaped handle_response. -/
def log_middleware (cfg : RpcLogCfg)
    (parse_raw_tx : String → Except String Json)
    (get_transaction : Json → Except String Json)
    (wait_for_transaction_receipt : Json → Except String Json)
    (make_request : String → List Json → Json)
    (method : String) (params : List Json) :
    Except String (Json × List LogEvent) :=
  let reqEvents : List LogEvent :=
    if RpcLogCfg.should_log_request cfg method then
      let hr := BaseRpcLog.handle_request cfg parse_raw_tx method params
      (hr.2.map LogEvent.warning) ++ [LogEvent.request hr.1]
    else []
  let response := make_request method params
  let respStep : Except String (List LogEvent) :=
    if RpcLogCfg.should_log_response cfg method then
      match BaseRpcLog.handle_response cfg get_transaction
              wait_for_transaction_receipt method params response with
      | .error e => .error e
      | .ok entry => .ok [LogEvent.response entry]
    else .ok []
  match respStep with
  | .error e => .error e
  | .ok respEvents => .ok (response, reqEvents ++ respEvents)

/-!  Helper lemmas shared by the claim theorems. -/

/-- The gwei conversion of a non-negative wei amount is non-negative. -/
lemma fromWeiToGwei_nonneg {w : Int} (hw : 0 ≤ w) : 0 ≤ fromWeiToGwei w := by
  unfold fromWeiToGwei
  have : (0 : Rat) ≤ (w : Rat) := by exact_mod_cast hw
  positivity

/-- raise_if_gas_fee_too_high with a finite configured limit raises exactly
when the fee strictly exceeds the limit. -/
lemma raise_iff_gt {c : BaseClient} {C : Rat}
    (hC : c.upper_limit_for_base_fee_in_gwei = GweiLimit.val C) (F : Rat) :
    (∃ m, BaseClient.raise_if_gas_fee_too_high c F =
        .error (.transactionTooExpensive m)) ↔ F > C := by
  unfold BaseClient.raise_if_gas_fee_too_high
  rw [hC]
  by_cases h : F > C <;> simp [h]

/-- When raise_if_gas_fee_too_high raises, the message is the fee-and-limit
string of base_client.py line 857, which contains the renderings of both
the fee and the limit. -/
lemma raise_msg {c : BaseClient} {C : Rat}
    (hC : c.upper_limit_for_base_fee_in_gwei = GweiLimit.val C) (F : Rat)
    (m : String)
    (hm : BaseClient.raise_if_gas_fee_too_high c F =
      .error (.transactionTooExpensive m)) :
    (∃ a b, m = a ++ toString F ++ b) ∧ ∃ a b, m = a ++ toString C ++ b := by
  unfold BaseClient.raise_if_gas_fee_too_high at hm
  rw [hC] at hm
  by_cases h : F > C
  · simp only [h, if_pos] at hm
    injection hm with hm'
    injection hm' with hmsg
    constructor
    · exact ⟨"Gas too expensive [fee=",
        " gwei, max=" ++ toString C ++ " gwei]",
        by rw [← hmsg]; simp [String.append_assoc]⟩
    · exact ⟨"Gas too expensive [fee=" ++ toString F ++ " gwei, max=",
        " gwei]", by rw [← hmsg]⟩
  · simp [h] at hm

/-- On the legacy path (resolved type 0 or 1), feeDispatch fills gasPrice
and hands the node-reported gas price (in gwei) to the ceiling check. -/
lemma feeDispatch_legacy {c : BaseClient} {s : ChainState}
    (h01 : BaseClient.resolveTxType c s = 0 ∨ BaseClient.resolveTxType c s = 1)
    (tx0 : TxParams) (parg : Option Rat) :
    BaseClient.feeDispatch c s tx0 parg =
      .ok ({ tx0 with gasPrice := some s.gasPriceWei },
           fromWeiToGwei s.gasPriceWei) := by
  unfold BaseClient.feeDispatch
  rw [if_pos h01]

/-- On the fee-market path (resolved type 2, base fee present), feeDispatch
fills the type-2 fee fields by the 2*base+priority formula and hands the
latest base fee (in gwei) to the ceiling check. -/
lemma feeDispatch_type2 {c : BaseClient} {s : ChainState} {B : Int}
    (h2 : BaseClient.resolveTxType c s = 2) (hB : s.baseFeePerGas = some B)
    (tx0 : TxParams) (parg : Option Rat) :
    BaseClient.feeDispatch c s tx0 parg =
      .ok ({ tx0 with
               type := some 2
               maxPriorityFeePerGas := some (toWeiFromGwei
                 (pyOrRat parg c.max_priority_fee_in_gwei))
               maxFeePerGas := some (toWeiFromGwei
                 (2 * fromWeiToGwei B +
                   pyOrRat parg c.max_priority_fee_in_gwei)) },
           fromWeiToGwei B) := by
  have h01 : ¬ (BaseClient.resolveTxType c s = 0 ∨
      BaseClient.resolveTxType c s = 1) := by
    rw [h2]; norm_num
  unfold BaseClient.feeDispatch
  rw [if_neg h01, if_pos h2]
  simp [BaseClient.estimate_max_fee_in_gwei, hB]

/-- For any other resolved type tag, feeDispatch is the
UnsupportedTransactionType error of line 361. -/
lemma feeDispatch_unsupported {c : BaseClient} {s : ChainState}
    (h0 : BaseClient.resolveTxType c s ≠ 0)
    (h1 : BaseClient.resolveTxType c s ≠ 1)
    (h2 : BaseClient.resolveTxType c s ≠ 2)
    (tx0 : TxParams) (parg : Option Rat) :
    BaseClient.feeDispatch c s tx0 parg =
      .error (.unsupportedTransactionType
        ("Transaction with tx_type=" ++ toString (BaseClient.resolveTxType c s)
          ++ " not supported, use either 0, 1 or 2")) := by
  unfold BaseClient.feeDispatch
  rw [if_neg (by tauto), if_neg h2]

/-- When the dispatch succeeded, build_base_tx errors exactly as the ceiling
check on the dispatched effective fee does. -/
lemma build_error_iff_raise {c : BaseClient} {s : ChainState}
    {tx1 : TxParams} {fee : Rat} {parg : Option Rat}
    (hd : BaseClient.feeDispatch c s (BaseClient.baseTx0 c s) parg =
      .ok (tx1, fee))
    (nonce : Option Nat) (gl : Option Int) (x : Web3Exc) :
    BaseClient.build_base_tx c s nonce gl parg = .error x ↔
      BaseClient.raise_if_gas_fee_too_high c fee = .error x := by
  unfold BaseClient.build_base_tx
  rw [hd]
  dsimp only
  cases hr : BaseClient.raise_if_gas_fee_too_high c fee with
  | error e => simp [hr]
  | ok u => cases u; cases gl <;> simp [hr]

/-- When the dispatch succeeded and the ceiling check passed, build_base_tx
returns the dispatched transaction with the nonce resolved (on-chain count
when the caller passed None) and the caller's gas limit when given. -/
lemma build_ok {c : BaseClient} {s : ChainState}
    {tx1 : TxParams} {fee : Rat} {parg : Option Rat}
    (hd : BaseClient.feeDispatch c s (BaseClient.baseTx0 c s) parg =
      .ok (tx1, fee))
    (hr : BaseClient.raise_if_gas_fee_too_high c fee = .ok ())
    (nonce : Option Nat) (gl : Option Int) :
    BaseClient.build_base_tx c s nonce gl parg =
      .ok (match gl with
           | some g => { tx1 with nonce := nonce.getD s.txCount, gas := some g }
           | Option.none => { tx1 with nonce := nonce.getD s.txCount }) := by
  unfold BaseClient.build_base_tx
  rw [hd]
  dsimp only
  rw [hr]
  cases gl <;> rfl

/-!  Claim theorems. -/

/-- Claim C1: for every base fee B >= 0 (the baseFeePerGas of the latest
block) and priority fee P >= 0 (caller-supplied or the configured default),
the type-2 fee estimation returns a max fee per gas exactly equal to
2*B + P (hence >= B + P), and a built type-2 transaction carries exactly
that max fee. -/
theorem claim_C1_max_fee_formula (s : ChainState) (B : Int) (P : Rat)
    (hB : s.baseFeePerGas = some B) (hB0 : 0 ≤ B) (hP0 : 0 ≤ P) :
    BaseClient.estimate_max_fee_in_gwei s P =
        .ok (2 * fromWeiToGwei B + P, fromWeiToGwei B)
      ∧ fromWeiToGwei B + P ≤ 2 * fromWeiToGwei B + P
      ∧ ∀ (c : BaseClient) (nonce : Option Nat) (gl : Option Int)
          (parg : Option Rat) (tx : TxParams),
          c.tx_type = some 2 →
          BaseClient.build_base_tx c s nonce gl parg = .ok tx →
          tx.maxFeePerGas =
            some (toWeiFromGwei
              (2 * fromWeiToGwei B +
                pyOrRat parg c.max_priority_fee_in_gwei)) := by
  refine ⟨by simp [BaseClient.estimate_max_fee_in_gwei, hB], ?_, ?_⟩
  · have := fromWeiToGwei_nonneg hB0
    linarith
  · intro c nonce gl parg tx htype hbuild
    have h2 : BaseClient.resolveTxType c s = 2 := by
      simp [BaseClient.resolveTxType, txTypeFalsy, htype]
    have hd := feeDispatch_type2 h2 hB (BaseClient.baseTx0 c s) parg
    unfold BaseClient.build_base_tx at hbuild
    rw [hd] at hbuild
    dsimp only at hbuild
    cases hr : BaseClient.raise_if_gas_fee_too_high c (fromWeiToGwei B) with
    | error e => rw [hr] at hbuild; simp at hbuild
    | ok u =>
        cases u
        rw [hr] at hbuild
        cases gl <;>
          (simp only [Except.ok.injEq] at hbuild; subst hbuild; rfl)

/-- Claim C2: with a finite configured cost ceiling C, the fee-estimation
step of build_base_tx raises TransactionTooExpensive exactly when the
effective fee F (node gas price on the legacy path, latest base fee on the
fee-market path) strictly exceeds C — so not at F = C — and the message
carries both F and C. -/
theorem claim_C2_ceiling_enforcement (c : BaseClient) (s : ChainState)
    (C : Rat) (hC : c.upper_limit_for_base_fee_in_gwei = GweiLimit.val C)
    (nonce : Option Nat) (gl : Option Int) (parg : Option Rat) :
    ((BaseClient.resolveTxType c s = 0 ∨ BaseClient.resolveTxType c s = 1) →
      ((∃ m, BaseClient.build_base_tx c s nonce gl parg =
          .error (.transactionTooExpensive m)) ↔
        fromWeiToGwei s.gasPriceWei > C)
      ∧ ∀ m, BaseClient.build_base_tx c s nonce gl parg =
          .error (.transactionTooExpensive m) →
          (∃ a b, m = a ++ toString (fromWeiToGwei s.gasPriceWei) ++ b)
          ∧ ∃ a b, m = a ++ toString C ++ b)
    ∧ (BaseClient.resolveTxType c s = 2 →
      ∀ B, s.baseFeePerGas = some B →
      ((∃ m, BaseClient.build_base_tx c s nonce gl parg =
          .error (.transactionTooExpensive m)) ↔
        fromWeiToGwei B > C)
      ∧ ∀ m, BaseClient.build_base_tx c s nonce gl parg =
          .error (.transactionTooExpensive m) →
          (∃ a b, m = a ++ toString (fromWeiToGwei B) ++ b)
          ∧ ∃ a b, m = a ++ toString C ++ b) := by
  constructor
  · intro h01
    have hd := feeDispatch_legacy h01 (BaseClient.baseTx0 c s) parg
    constructor
    · rw [← raise_iff_gt hC (fromWeiToGwei s.gasPriceWei)]
      exact exists_congr (fun m =>
        build_error_iff_raise hd nonce gl (.transactionTooExpensive m))
    · intro m hm
      exact raise_msg hC _ m
        ((build_error_iff_raise hd nonce gl (.transactionTooExpensive m)).mp hm)
  · intro h2 B hB
    have hd := feeDispatch_type2 h2 hB (BaseClient.baseTx0 c s) parg
    constructor
    · rw [← raise_iff_gt hC (fromWeiToGwei B)]
      exact exists_congr (fun m =>
        build_error_iff_raise hd nonce gl (.transactionTooExpensive m))
    · intro m hm
      exact raise_msg hC _ m
        ((build_error_iff_raise hd nonce gl (.transactionTooExpensive m)).mp hm)

/-- A concrete chain state shared by the witnesses: gas price 30 gwei,
latest base fee 100 gwei. -/
def sampleState : ChainState :=
  { chainId := 5
    gasPriceWei := 30000000000
    baseFeePerGas := some 100000000000
    txCount := 7
    estimateGasForTransfer := fun _ _ => 50000 }

/-- A concrete type-2 client with a cost ceiling of 50 gwei. -/
def sampleClient : BaseClient :=
  { chain_id := some 5
    tx_type := some 2
    max_priority_fee_in_gwei := 1
    upper_limit_for_base_fee_in_gwei := GweiLimit.val 50
    user_address := "0xaa" }

/-- Witness for claim C1 at base fee 100 gwei and priority fee 1 gwei. -/
theorem claim_C1_max_fee_formula_witness :
    BaseClient.estimate_max_fee_in_gwei sampleState 1 = .ok (201, 100) ∧
    fromWeiToGwei 100000000000 + 1 ≤ 2 * fromWeiToGwei 100000000000 + 1 := by
  have h := claim_C1_max_fee_formula sampleState 100000000000 1 rfl
    (by norm_num) (by norm_num)
  constructor
  · rw [h.1]
    norm_num [fromWeiToGwei]
  · exact h.2.1

/-- Witness for claim C2: base fee 100 gwei against ceiling 50 gwei raises
TransactionTooExpensive. -/
theorem claim_C2_ceiling_enforcement_witness :
    sampleClient.upper_limit_for_base_fee_in_gwei = GweiLimit.val 50 ∧
    BaseClient.resolveTxType sampleClient sampleState = 2 ∧
    sampleState.baseFeePerGas = some 100000000000 ∧
    ∃ m, BaseClient.build_base_tx sampleClient sampleState
        Option.none Option.none Option.none =
      .error (.transactionTooExpensive m) := by
  refine ⟨rfl, rfl, rfl, ?_⟩
  have h := (claim_C2_ceiling_enforcement sampleClient sampleState 50 rfl
    Option.none Option.none Option.none).2 rfl 100000000000 rfl
  exact h.1.mpr (by norm_num [fromWeiToGwei])

/-- build_base_tx forwards a dispatch error unchanged. -/
lemma build_error_of_dispatch_error {c : BaseClient} {s : ChainState}
    {parg : Option Rat} {e : Web3Exc}
    (hd : BaseClient.feeDispatch c s (BaseClient.baseTx0 c s) parg = .error e)
    (nonce : Option Nat) (gl : Option Int) :
    BaseClient.build_base_tx c s nonce gl parg = .error e := by
  unfold BaseClient.build_base_tx
  rw [hd]

/-- The only exception raise_if_gas_fee_too_high can raise is
TransactionTooExpensive. -/
lemma raise_error_shape {c : BaseClient} {F : Rat} {e : Web3Exc}
    (h : BaseClient.raise_if_gas_fee_too_high c F = .error e) :
    ∃ m, e = .transactionTooExpensive m := by
  unfold BaseClient.raise_if_gas_fee_too_high at h
  rcases hu : c.upper_limit_for_base_fee_in_gwei with _ | _ | C <;>
    rw [hu] at h <;> dsimp only at h
  · simp at h
  · simp at h
  · by_cases hgt : F > C
    · rw [if_pos hgt] at h
      exact ⟨_, (Except.error.inj h).symm⟩
    · rw [if_neg hgt] at h
      simp at h

/-- If build_base_tx errors, the error came from the dispatch or from the
ceiling check on a successfully dispatched fee. -/
lemma build_error_cases {c : BaseClient} {s : ChainState}
    {nonce : Option Nat} {gl : Option Int} {parg : Option Rat} {x : Web3Exc}
    (hb : BaseClient.build_base_tx c s nonce gl parg = .error x) :
    BaseClient.feeDispatch c s (BaseClient.baseTx0 c s) parg = .error x ∨
    ∃ tx1 fee, BaseClient.feeDispatch c s (BaseClient.baseTx0 c s) parg =
        .ok (tx1, fee) ∧
      BaseClient.raise_if_gas_fee_too_high c fee = .error x := by
  unfold BaseClient.build_base_tx at hb
  cases hd : BaseClient.feeDispatch c s (BaseClient.baseTx0 c s) parg with
  | error e =>
      rw [hd] at hb
      dsimp only at hb
      left
      exact congrArg Except.error (Except.error.inj hb)
  | ok pr =>
      obtain ⟨tx1, fee⟩ := pr
      rw [hd] at hb
      dsimp only at hb
      right
      refine ⟨tx1, fee, rfl, ?_⟩
      cases hr : BaseClient.raise_if_gas_fee_too_high c fee with
      | error e =>
          rw [hr] at hb
          dsimp only at hb
          exact congrArg Except.error (Except.error.inj hb)
      | ok u =>
          cases u
          rw [hr] at hb
          cases gl <;> simp at hb

/-- When the resolved type is 0, 1 or 2, the dispatch never raises
UnsupportedTransactionType. -/
lemma feeDispatch_not_unsupported {c : BaseClient} {s : ChainState}
    (h : BaseClient.resolveTxType c s = 0 ∨ BaseClient.resolveTxType c s = 1 ∨
      BaseClient.resolveTxType c s = 2)
    (tx0 : TxParams) (parg : Option Rat) (m : String) :
    BaseClient.feeDispatch c s tx0 parg ≠
      .error (.unsupportedTransactionType m) := by
  rcases h with h | h | h
  · rw [feeDispatch_legacy (Or.inl h) tx0 parg]; simp
  · rw [feeDispatch_legacy (Or.inr h) tx0 parg]; simp
  · have h01 : ¬ (BaseClient.resolveTxType c s = 0 ∨
        BaseClient.resolveTxType c s = 1) := by rw [h]; norm_num
    unfold BaseClient.feeDispatch
    rw [if_neg h01, if_pos h]
    cases hB : s.baseFeePerGas with
    | none => simp [BaseClient.estimate_max_fee_in_gwei, hB]
    | some B => simp [BaseClient.estimate_max_fee_in_gwei, hB]

/-- When the client's tx_type is falsy, the inferred type is 0 or 2. -/
lemma resolveTxType_of_falsy {c : BaseClient} {s : ChainState}
    (h : txTypeFalsy c.tx_type = true) :
    BaseClient.resolveTxType c s = 0 ∨ BaseClient.resolveTxType c s = 2 := by
  unfold BaseClient.resolveTxType BaseClient.infer_tx_type
  rw [if_pos h]
  split_ifs <;> simp

/-- Claim C9: with any configured transaction-type tag other than 0, 1 and
2, build_base_tx fails immediately with the UnsupportedTransactionType error
condition (a Web3ClientException in the source); with tags 0, 1 and 2 that
error is never raised. -/
theorem claim_C9_unsupported_tx_type (c : BaseClient) (s : ChainState)
    (nonce : Option Nat) (gl : Option Int) (parg : Option Rat) (t : Int)
    (ht : c.tx_type = some t) :
    (¬ (t = 0 ∨ t = 1 ∨ t = 2) →
      BaseClient.build_base_tx c s nonce gl parg =
        .error (.unsupportedTransactionType
          ("Transaction with tx_type=" ++ toString t
            ++ " not supported, use either 0, 1 or 2")))
    ∧ ((t = 0 ∨ t = 1 ∨ t = 2) →
      ∀ m, BaseClient.build_base_tx c s nonce gl parg ≠
        .error (.unsupportedTransactionType m)) := by
  constructor
  · intro hnot
    have ht0 : t ≠ 0 := fun h => hnot (Or.inl h)
    have hres : BaseClient.resolveTxType c s = t := by
      unfold BaseClient.resolveTxType
      rw [if_neg (by simp [txTypeFalsy, ht, ht0]), ht]
      rfl
    have hd := feeDispatch_unsupported
      (by rw [hres]; exact ht0)
      (by rw [hres]; exact fun h => hnot (Or.inr (Or.inl h)))
      (by rw [hres]; exact fun h => hnot (Or.inr (Or.inr h)))
      (BaseClient.baseTx0 c s) parg
    rw [hres] at hd
    exact build_error_of_dispatch_error hd nonce gl
  · intro hmem m hb
    have hres : BaseClient.resolveTxType c s = 0 ∨
        BaseClient.resolveTxType c s = 1 ∨
        BaseClient.resolveTxType c s = 2 := by
      rcases hmem with h | h | h
      · subst h
        rcases resolveTxType_of_falsy (c := c) (s := s)
          (by simp [txTypeFalsy, ht]) with h2 | h2
        · exact Or.inl h2
        · exact Or.inr (Or.inr h2)
      · subst h
        right; left
        unfold BaseClient.resolveTxType
        rw [if_neg (by simp [txTypeFalsy, ht]), ht]
        rfl
      · subst h
        right; right
        unfold BaseClient.resolveTxType
        rw [if_neg (by simp [txTypeFalsy, ht]), ht]
        rfl
    rcases build_error_cases hb with hd | ⟨tx1, fee, hd, hr⟩
    · exact feeDispatch_not_unsupported hres (BaseClient.baseTx0 c s) parg m hd
    · obtain ⟨m2, hm2⟩ := raise_error_shape hr
      simp at hm2

/-- Witness for claim C9: tag 3 is rejected, tag 2 never raises the
unsupported-type error. -/
theorem claim_C9_unsupported_tx_type_witness :
    ({ sampleClient with tx_type := some 3 } : BaseClient).tx_type = some 3 ∧
    BaseClient.build_base_tx { sampleClient with tx_type := some 3 }
        sampleState Option.none Option.none Option.none =
      .error (.unsupportedTransactionType
        "Transaction with tx_type=3 not supported, use either 0, 1 or 2") ∧
    ∀ m, BaseClient.build_base_tx sampleClient sampleState
        Option.none Option.none Option.none ≠
      .error (.unsupportedTransactionType m) := by
  refine ⟨rfl, ?_, ?_⟩
  · have h := (claim_C9_unsupported_tx_type
      { sampleClient with tx_type := some 3 } sampleState
      Option.none Option.none Option.none 3 rfl).1 (by norm_num)
    exact h
  · exact (claim_C9_unsupported_tx_type sampleClient sampleState
      Option.none Option.none Option.none 2 rfl).2 (by norm_num)

/-- Claim C10: Python-falsy constructor arguments fall back to the class
defaults: tx_type=0 yields the default 2, max_priority_fee_in_gwei=0 yields
0.01, upper_limit_for_base_fee_in_gwei=0 yields the infinite default,
chain_id=0 yields the default None — and no constructed client ever has
tx_type 0. -/
theorem claim_C10_falsy_constructor_args :
    (∀ args : InitArgs, args.tx_type = some 0 →
        (BaseClient.init args).tx_type = some 2)
    ∧ (∀ args : InitArgs, args.max_priority_fee_in_gwei = some 0 →
        (BaseClient.init args).max_priority_fee_in_gwei = 1 / 100)
    ∧ (∀ args : InitArgs, args.upper_limit_for_base_fee_in_gwei = some 0 →
        (BaseClient.init args).upper_limit_for_base_fee_in_gwei = GweiLimit.inf)
    ∧ (∀ args : InitArgs, args.chain_id = some 0 →
        (BaseClient.init args).chain_id = Option.none)
    ∧ (∀ args : InitArgs, (BaseClient.init args).tx_type ≠ some 0) := by
  refine ⟨?_, ?_, ?_, ?_, ?_⟩
  · intro args h
    simp [BaseClient.init, pyOrInt, h]
  · intro args h
    simp [BaseClient.init, pyOrRat, h]
  · intro args h
    simp [BaseClient.init, h]
  · intro args h
    simp [BaseClient.init, pyOrInt, h]
  · intro args
    unfold BaseClient.init pyOrInt
    cases h : args.tx_type with
    | none => simp
    | some v =>
        by_cases hv : v = 0 <;> simp [hv]

/-- A type-2 client with no cost ceiling (the class default float("inf")). -/
def sampleClientInf : BaseClient :=
  { chain_id := some 5
    tx_type := some 2
    max_priority_fee_in_gwei := 1
    upper_limit_for_base_fee_in_gwei := GweiLimit.inf
    user_address := "0xaa" }

/-- Counterexample to claim C3: a caller-supplied gas limit of 21000 on a
plain-value transfer is overwritten by the estimateGas answer (50000 here),
because the Python dict merge in build_tx_with_value_in_wei lets the
estimated gas win. -/
theorem claim_C3_counterexample :
    (BaseClient.build_tx_with_value_in_wei sampleClientInf sampleState
        "0xbb" 5 Option.none (some 21000) Option.none).toOption.map
      TxParams.gas = some (some 50000) ∧
    some (some (50000 : Int)) ≠ some (some (21000 : Int)) := by
  constructor
  · rfl
  · decide

/-- Claim C3 amended: for plain-value transfers the gas field of the built
request always comes from the estimateGas call, even when the caller
supplied a gas limit; the caller-supplied gas limit is honoured by the
underlying build_base_tx (and hence by the contract-transaction path). -/
theorem claim_C3_amended_gas_estimated (c : BaseClient) (s : ChainState)
    (to_ : String) (v : Int) (nonce : Option Nat) (gl : Option Int)
    (parg : Option Rat) :
    (∀ tx, BaseClient.build_tx_with_value_in_wei c s to_ v nonce gl parg =
        .ok tx →
      tx.gas = some (s.estimateGasForTransfer to_ v))
    ∧ (∀ g tx2, BaseClient.build_base_tx c s nonce (some g) parg = .ok tx2 →
      tx2.gas = some g) := by
  constructor
  · intro tx hb
    unfold BaseClient.build_tx_with_value_in_wei at hb
    cases hbase : BaseClient.build_base_tx c s nonce gl parg with
    | error e => rw [hbase] at hb; simp at hb
    | ok t =>
        rw [hbase] at hb
        dsimp only at hb
        have := Except.ok.inj hb
        subst this
        rfl
  · intro g tx2 hb
    unfold BaseClient.build_base_tx at hb
    cases hd : BaseClient.feeDispatch c s (BaseClient.baseTx0 c s) parg with
    | error e => rw [hd] at hb; simp at hb
    | ok pr =>
        obtain ⟨tx1, fee⟩ := pr
        rw [hd] at hb
        dsimp only at hb
        cases hr : BaseClient.raise_if_gas_fee_too_high c fee with
        | error e => rw [hr] at hb; simp at hb
        | ok u =>
            cases u
            rw [hr] at hb
            dsimp only at hb
            have := Except.ok.inj hb
            subst this
            rfl

/-- Witness for the amended claim C3. -/
theorem claim_C3_amended_gas_estimated_witness :
    (∃ tx, BaseClient.build_tx_with_value_in_wei sampleClientInf sampleState
        "0xbb" 5 Option.none (some 21000) Option.none = .ok tx ∧
      tx.gas = some 50000) ∧
    ∃ tx2, BaseClient.build_base_tx sampleClientInf sampleState
        Option.none (some 21000) Option.none = .ok tx2 ∧
      tx2.gas = some 21000 := by
  have h := claim_C3_amended_gas_estimated sampleClientInf sampleState
    "0xbb" 5 Option.none (some 21000) Option.none
  constructor
  · exact ⟨_, rfl, h.1 _ rfl⟩
  · exact ⟨_, rfl, h.2 21000 _ rfl⟩

/-- A chain state whose latest block has no baseFeePerGas field. -/
def stateNoBaseFee : ChainState :=
  { chainId := 1
    gasPriceWei := 30000000000
    baseFeePerGas := Option.none
    txCount := 0
    estimateGasForTransfer := fun _ _ => 21000 }

/-- A client on chain id 1 with no explicit transaction type. -/
def clientMainnetUnset : BaseClient :=
  { chain_id := some 1
    tx_type := Option.none
    max_priority_fee_in_gwei := 1 / 100
    upper_limit_for_base_fee_in_gwei := GweiLimit.inf
    user_address := "0xaa" }

/-- The same unset-type client on chain id 5. -/
def clientUnset : BaseClient :=
  { clientMainnetUnset with chain_id := some 5 }

/-- Counterexample to claim C7: with the transaction type unset and chain id
1, the type is resolved to 2 without probing — here the latest block has no
base-fee field, yet the resolved type is 2, not the legacy 0 the claim
requires. -/
theorem claim_C7_counterexample :
    txTypeFalsy clientMainnetUnset.tx_type = true ∧
    BaseClient.supports_eip1559 stateNoBaseFee = false ∧
    BaseClient.resolveTxType clientMainnetUnset stateNoBaseFee = 2 ∧
    BaseClient.resolveTxType clientMainnetUnset stateNoBaseFee ≠ 0 := by
  refine ⟨rfl, rfl, rfl, by decide⟩

/-- Claim C7 amended: when the transaction type is unset, each build call
re-derives it from the current chain state: on chain id 1 the type is 2
outright (no probe); on any other chain the node is probed and the type is
2 exactly when the latest block exposes a base-fee field, and 0 exactly
when it does not. -/
theorem claim_C7_amended_infer_tx_type (c : BaseClient) (s : ChainState)
    (hfalsy : txTypeFalsy c.tx_type = true) :
    (c.chain_id = some 1 → BaseClient.resolveTxType c s = 2)
    ∧ (c.chain_id ≠ some 1 →
        ((BaseClient.resolveTxType c s = 2 ↔
            BaseClient.supports_eip1559 s = true)
         ∧ (BaseClient.resolveTxType c s = 0 ↔
            BaseClient.supports_eip1559 s = false))) := by
  unfold BaseClient.resolveTxType BaseClient.infer_tx_type
  rw [if_pos hfalsy]
  constructor
  · intro h1
    rw [if_pos h1]
  · intro h1
    rw [if_neg h1]
    cases h : BaseClient.supports_eip1559 s <;> simp [h]

/-- Witness for the amended claim C7: chain id 1 resolves to 2 without a
base fee; chain id 5 resolves to 2 with one and to 0 without one. -/
theorem claim_C7_amended_infer_tx_type_witness :
    BaseClient.resolveTxType clientMainnetUnset stateNoBaseFee = 2 ∧
    BaseClient.resolveTxType clientUnset sampleState = 2 ∧
    BaseClient.resolveTxType clientUnset stateNoBaseFee = 0 := by
  refine ⟨(claim_C7_amended_infer_tx_type clientMainnetUnset stateNoBaseFee
      rfl).1 rfl, ?_, ?_⟩
  · exact ((claim_C7_amended_infer_tx_type clientUnset sampleState
      rfl).2 (by decide)).1.mpr rfl
  · exact ((claim_C7_amended_infer_tx_type clientUnset stateNoBaseFee
      rfl).2 (by decide)).2.mpr rfl

/-- Subscription arguments with no transaction filters. -/
def argsNoFilter : SubscribeArgs := {}

/-- A transaction-fetch oracle that always fails (TransactionNotFound). -/
def pollNone : Json → Except String TxDataLite :=
  fun _ => .error "TransactionNotFound"

/-- The subscription id of the current session in the examples. -/
def sidA : Json := Json.str "0xsubA"

/-- A well-formed notification frame carrying a DIFFERENT subscription id. -/
def frameB : Json :=
  Json.obj [("params", Json.obj
    [("subscription", Json.str "0xsubB"), ("result", Json.str "0xhash")])]

/-- A well-formed notification frame carrying the session's id. -/
def frameA : Json :=
  Json.obj [("params", Json.obj
    [("subscription", Json.str "0xsubA"), ("result", Json.str "0xhash")])]

/-- Counterexample to claim C4: a single frame whose subscription id does not
match is dropped (no callback runs), yet the once=true receive loop still
returns right after processing it — the subscriber does NOT keep waiting. -/
theorem claim_C4_counterexample :
    process_notification argsNoFilter pollNone frameB sidA = .ok [] ∧
    subscribeMainLoop true
        (fun f => process_notification argsNoFilter pollNone f sidA)
        [frameB] = .ok ([], true) := by
  constructor <;> rfl

/-- Claim C4 amended: with once=true the subscriber terminates right after
processing the FIRST raw notification received, whether or not that
notification reached the caller's callback (dropped notifications terminate
it too). -/
theorem claim_C4_amended_once_first_frame
    (proc : Json → Except Web3Exc (List SubEvent))
    (f : Json) (rest : List Json) (evs : List SubEvent)
    (h : proc f = .ok evs) :
    subscribeMainLoop true proc (f :: rest) = .ok (evs, true) := by
  unfold subscribeMainLoop
  rw [h]
  rfl

/-- Witness for the amended claim C4 on a dropped frame. -/
theorem claim_C4_amended_once_first_frame_witness :
    subscribeMainLoop true
        (fun f => process_notification argsNoFilter pollNone f sidA)
        [frameB] = .ok ([], true) :=
  claim_C4_amended_once_first_frame
    (fun f => process_notification argsNoFilter pollNone f sidA)
    frameB [] [] rfl

/-- Claim C5: a notification frame whose subscription id differs from the id
of the current session is silently dropped (no callback of any kind runs),
and any frame that produces a main-callback invocation parsed to the
session's id. -/
theorem claim_C5_subscription_id_isolation (args : SubscribeArgs)
    (poll : Json → Except String TxDataLite) (frame sid : Json) :
    (∀ id data, parse_notification frame = .ok (id, data) → id ≠ sid →
      process_notification args poll frame sid = .ok [])
    ∧ (∀ evs d t, process_notification args poll frame sid = .ok evs →
        SubEvent.mainCallback d t ∈ evs →
        ∃ pdata, parse_notification frame = .ok (sid, pdata)) := by
  constructor
  · intro id data hparse hne
    unfold process_notification
    rw [hparse]
    dsimp only
    rw [if_pos hne]
  · intro evs d t hproc hmem
    unfold process_notification at hproc
    cases hparse : parse_notification frame with
    | error e => rw [hparse] at hproc; simp at hproc
    | ok pr =>
        obtain ⟨pid, pdata⟩ := pr
        rw [hparse] at hproc
        dsimp only at hproc
        by_cases hne : pid ≠ sid
        · rw [if_pos hne] at hproc
          rw [← Except.ok.inj hproc] at hmem
          simp at hmem
        · push_neg at hne
          subst hne
          exact ⟨pdata, rfl⟩

/-- Witness for claim C5: the mismatching frame is dropped; the matching
frame does reach the callback. -/
theorem claim_C5_subscription_id_isolation_witness :
    process_notification argsNoFilter pollNone frameB sidA = .ok [] ∧
    ∃ pdata, parse_notification frameA = .ok (sidA, pdata) := by
  constructor
  · exact (claim_C5_subscription_id_isolation argsNoFilter pollNone
      frameB sidA).1 (Json.str "0xsubB") (Json.str "0xhash") rfl (by decide)
  · exact (claim_C5_subscription_id_isolation argsNoFilter pollNone
      frameA sidA).2 [SubEvent.mainCallback (Json.str "0xhash") Option.none]
      (Json.str "0xhash") Option.none rfl (by decide)

/-- An RPC-log configuration that fetches transaction data on responses. -/
def cfgFetch : RpcLogCfg :=
  { rpc_whitelist := Option.none
    fetch_tx_data := true
    fetch_tx_receipt := false
    parse_raw_tx_data := true }

/-- A successful RPC response carrying a transaction hash. -/
def okResponse : Json := Json.obj [("result", Json.str "0xhash")]

/-- A transport that answers every request with okResponse. -/
def mkOk : String → List Json → Json := fun _ _ => okResponse

/-- A node oracle that always raises. -/
def failFetch : Json → Except String Json := fun _ => .error "boom"

/-- A decode oracle that always succeeds. -/
def okParse : String → Except String Json := fun _ => .ok (Json.str "decoded")

/-- Counterexample to claim C6: with transaction fetching enabled, an
exception raised while fetching the confirmed transaction for the response
log entry escapes the middleware (there is no try/except in
handle_response), so it is not reduced to a warning. -/
theorem claim_C6_counterexample :
    log_middleware cfgFetch okParse failFetch failFetch mkOk
        "eth_sendRawTransaction" [Json.str "0xdead"] = .error "boom" := by
  rfl

/-- Claim C6 amended: decoding failures inside handle_request are caught and
reduced to a warning and never abort the wrapped call — with a failing
decode oracle the middleware still performs the wrapped call and returns its
response (with parsed_tx_data unset) whenever the response side succeeds —
but fetch failures inside handle_response are NOT caught: they escape the
middleware (after the wrapped call has completed). -/
theorem claim_C6_amended_decode_caught_fetch_escapes (cfg : RpcLogCfg)
    (get wait : Json → Except String Json)
    (mk : String → List Json → Json) (method : String) (params : List Json)
    (msg : String) :
    ((BaseRpcLog.handle_request cfg (fun _ => .error msg)
        method params).1.parsed_tx_data = Option.none)
    ∧ (∀ entry, BaseRpcLog.handle_response cfg get wait method params
          (mk method params) = .ok entry →
        ∃ events, log_middleware cfg (fun _ => .error msg) get wait mk
            method params = .ok (mk method params, events))
    ∧ (RpcLogCfg.should_log_response cfg method = true →
        ∀ e, BaseRpcLog.handle_response cfg get wait method params
            (mk method params) = .error e →
        log_middleware cfg (fun _ => .error msg) get wait mk method params =
          .error e) := by
  refine ⟨?_, ?_, ?_⟩
  · unfold BaseRpcLog.handle_request
    dsimp only
    by_cases hp : cfg.parse_raw_tx_data = true
    · rw [if_pos hp]
      by_cases hm : method = "eth_sendRawTransaction"
      · rw [if_pos hm]
        cases params with
        | nil => rfl
        | cons p rest => cases p <;> rfl
      · rw [if_neg hm]
    · rw [if_neg hp]
  · intro entry hresp
    simp only [log_middleware]
    by_cases hl : RpcLogCfg.should_log_response cfg method = true
    · rw [if_pos hl, hresp]
      exact ⟨_, rfl⟩
    · rw [if_neg hl]
      exact ⟨_, rfl⟩
  · intro hl e hresp
    simp only [log_middleware]
    rw [if_pos hl, hresp]

/-- Witness for the amended claim C6 at a concrete failing decode and a
concrete failing fetch. -/
theorem claim_C6_amended_decode_caught_fetch_escapes_witness :
    ((BaseRpcLog.handle_request cfgFetch (fun _ => .error "bad rlp")
        "eth_sendRawTransaction" [Json.str "0xdead"]).1.parsed_tx_data =
      Option.none)
    ∧ log_middleware cfgFetch (fun _ => .error "bad rlp") failFetch failFetch
        mkOk "eth_sendRawTransaction" [Json.str "0xdead"] = .error "boom" := by
  have h := claim_C6_amended_decode_caught_fetch_escapes cfgFetch
    failFetch failFetch mkOk "eth_sendRawTransaction" [Json.str "0xdead"]
    "bad rlp"
  exact ⟨h.1, h.2.2 rfl "boom" rfl⟩

/-- Counterexample to claim C8: with decoding enabled and a decode oracle
that succeeds on anything, a request to eth_call reaches log_request with NO
structured transaction view — handle_request only ever decodes
eth_sendRawTransaction (and likewise for eth_estimateGas). -/
theorem claim_C8_counterexample :
    (BaseRpcLog.handle_request { } okParse "eth_call"
        [Json.obj [("from", Json.str "0xaa")]]).1.parsed_tx_data =
      Option.none ∧
    (BaseRpcLog.handle_request { } okParse "eth_estimateGas"
        [Json.obj [("from", Json.str "0xaa")]]).1.parsed_tx_data =
      Option.none ∧
    (Option.none : Option Json) ≠ some (Json.str "decoded") := by
  refine ⟨rfl, rfl, by decide⟩

/-- Claim C8 amended: before log_request is invoked, the raw request
parameters are decoded into a structured transaction view only for
eth_sendRawTransaction (when decoding is enabled); for every other method,
eth_call and eth_estimateGas included, the entry carries no decoded view
(the direct-field-mapping parsers for call/estimate-gas exist as helpers but
are never invoked by the middleware). -/
theorem claim_C8_amended_only_raw_send_decoded (cfg : RpcLogCfg)
    (parse : String → Except String Json) (method : String)
    (params : List Json) :
    (method ≠ "eth_sendRawTransaction" →
      (BaseRpcLog.handle_request cfg parse method params).1.parsed_tx_data =
        Option.none)
    ∧ (∀ raw d rest, cfg.parse_raw_tx_data = true → parse raw = .ok d →
        (BaseRpcLog.handle_request cfg parse "eth_sendRawTransaction"
            (Json.str raw :: rest)).1.parsed_tx_data = some d) := by
  constructor
  · intro hm
    unfold BaseRpcLog.handle_request
    dsimp only
    by_cases hp : cfg.parse_raw_tx_data = true
    · rw [if_pos hp, if_neg hm]
    · rw [if_neg hp]
  · intro raw d rest hp hparse
    unfold BaseRpcLog.handle_request
    dsimp only
    rw [if_pos hp]
    rw [if_pos rfl]
    rw [hparse]

/-- Witness for the amended claim C8. -/
theorem claim_C8_amended_only_raw_send_decoded_witness :
    ((BaseRpcLog.handle_request { } okParse "eth_call"
        [Json.str "0xdead"]).1.parsed_tx_data = Option.none)
    ∧ (BaseRpcLog.handle_request { } okParse "eth_sendRawTransaction"
        [Json.str "0xdead"]).1.parsed_tx_data = some (Json.str "decoded") := by
  have h := claim_C8_amended_only_raw_send_decoded { } okParse
  exact ⟨(h "eth_call" [Json.str "0xdead"]).1 (by decide),
    (h "eth_sendRawTransaction" [Json.str "0xdead"]).2 "0xdead"
      (Json.str "decoded") [] rfl rfl⟩

/-- Witness for claim C10 at concrete constructor arguments. -/
theorem claim_C10_falsy_constructor_args_witness :
    (BaseClient.init { tx_type := some 0 }).tx_type = some 2 ∧
    (BaseClient.init
        { max_priority_fee_in_gwei := some 0 }).max_priority_fee_in_gwei =
      1 / 100 ∧
    (BaseClient.init
        { upper_limit_for_base_fee_in_gwei :=
            some 0 }).upper_limit_for_base_fee_in_gwei = GweiLimit.inf ∧
    (BaseClient.init { chain_id := some 0 }).chain_id = Option.none ∧
    (BaseClient.init { tx_type := some 0 }).tx_type ≠ some 0 := by
  refine ⟨claim_C10_falsy_constructor_args.1 _ rfl,
    claim_C10_falsy_constructor_args.2.1 _ rfl,
    claim_C10_falsy_constructor_args.2.2.1 _ rfl,
    claim_C10_falsy_constructor_args.2.2.2.1 _ rfl,
    claim_C10_falsy_constructor_args.2.2.2.2 _⟩

end Web3client
